import Mathlib

/-
Verification of the single-qubit quantum simulator core.

Numbers are modelled as exact reals; the JavaScript floating-point numbers
of the source are idealized to their exact mathematical values, with the
tolerance comparisons of the source kept as written.

Two variants of the numeric kernel exist in the repository and are embedded
separately:
  - namespace QuantumMath : the standalone math module (src/unnamed/part_000),
    whose Complex constructor snaps components of magnitude below 1e-15 to 0;
  - namespace App : the component file (src/src/App.tsx), whose Complex
    constructor performs no snapping, and which owns the composition engine
    (addGate, removeOperation, reset) and the undo and redo history.
-/

noncomputable section

/-- The snapping performed by the part_000 Complex constructor:
a component of magnitude below 1e-15 becomes exactly 0. -/
def snap (x : ℝ) : ℝ := if |x| < 1e-15 then 0 else x

namespace QuantumMath

/-- Complex number value: two real components (part_000 class Complex). -/
structure Complex where
  re : ℝ
  im : ℝ

/-- The part_000 constructor: both components pass through snap. -/
def Complex.construct (re im : ℝ) : Complex := ⟨snap re, snap im⟩

/-- Complex.fromPolar of part_000. -/
def Complex.fromPolar (magnitude phase : ℝ) : Complex :=
  Complex.construct (magnitude * Real.cos phase) (magnitude * Real.sin phase)

/-- Complex.zero of part_000. -/
def Complex.zero : Complex := Complex.construct 0 0

/-- Complex.one of part_000. -/
def Complex.one : Complex := Complex.construct 1 0

/-- Complex.i of part_000. -/
def Complex.i : Complex := Complex.construct 0 1

/-- Complex multiplication of part_000; the result passes through the
snapping constructor. -/
def Complex.multiply (a b : Complex) : Complex :=
  Complex.construct (a.re * b.re - a.im * b.im) (a.re * b.im + a.im * b.re)

/-- Complex addition of part_000. -/
def Complex.add (a b : Complex) : Complex :=
  Complex.construct (a.re + b.re) (a.im + b.im)

/-- Complex subtraction of part_000. -/
def Complex.subtract (a b : Complex) : Complex :=
  Complex.construct (a.re - b.re) (a.im - b.im)

/-- Complex conjugation of part_000. -/
def Complex.conjugate (a : Complex) : Complex :=
  Complex.construct a.re (-a.im)

/-- magnitudeSquared of part_000: re*re + im*im, returned raw. -/
def Complex.magnitudeSquared (a : Complex) : ℝ := a.re * a.re + a.im * a.im

/-- Tolerance equality of part_000: both component differences strictly
below the tolerance. -/
def Complex.equals (a b : Complex) (tolerance : ℝ) : Prop :=
  |a.re - b.re| < tolerance ∧ |a.im - b.im| < tolerance

/-- Row-major 2 by 2 complex matrix. -/
structure Matrix2x2 where
  m00 : Complex
  m01 : Complex
  m10 : Complex
  m11 : Complex

/-- Two-element state vector of amplitudes. -/
structure StateVector where
  v0 : Complex
  v1 : Complex

/-- SQRT2 constant of part_000. -/
def SQRT2 : ℝ := Real.sqrt 2

/-- SQRT2_INV constant of part_000. -/
def SQRT2_INV : ℝ := 1 / SQRT2

/-- PI_4 constant of part_000. -/
def PI_4 : ℝ := Real.pi / 4

end QuantumMath

/-- The eight gate identifiers of the registry, as a closed enumeration. -/
inductive Gate
  | H
  | X
  | Y
  | Z
  | S
  | T
  | Sdag
  | Tdag
deriving DecidableEq

namespace QuantumMath

/-- The GATES registry of part_000, identifier to matrix. -/
def GATES : Gate → Matrix2x2
  | Gate.H =>
      ⟨Complex.construct SQRT2_INV 0, Complex.construct SQRT2_INV 0,
       Complex.construct SQRT2_INV 0, Complex.construct (-SQRT2_INV) 0⟩
  | Gate.X => ⟨Complex.zero, Complex.one, Complex.one, Complex.zero⟩
  | Gate.Y => ⟨Complex.zero, Complex.construct 0 (-1), Complex.i, Complex.zero⟩
  | Gate.Z => ⟨Complex.one, Complex.zero, Complex.zero, Complex.construct (-1) 0⟩
  | Gate.S => ⟨Complex.one, Complex.zero, Complex.zero, Complex.i⟩
  | Gate.T => ⟨Complex.one, Complex.zero, Complex.zero, Complex.fromPolar 1 PI_4⟩
  | Gate.Sdag => ⟨Complex.one, Complex.zero, Complex.zero, Complex.construct 0 (-1)⟩
  | Gate.Tdag => ⟨Complex.one, Complex.zero, Complex.zero, Complex.fromPolar 1 (-PI_4)⟩

/-- multiplyMatrices of part_000: standard 2 by 2 complex product. -/
def multiplyMatrices (a b : Matrix2x2) : Matrix2x2 :=
  ⟨(a.m00.multiply b.m00).add (a.m01.multiply b.m10),
   (a.m00.multiply b.m01).add (a.m01.multiply b.m11),
   (a.m10.multiply b.m00).add (a.m11.multiply b.m10),
   (a.m10.multiply b.m01).add (a.m11.multiply b.m11)⟩

/-- applyMatrix of part_000: matrix acting on a state vector. -/
def applyMatrix (matrix : Matrix2x2) (state : StateVector) : StateVector :=
  ⟨(matrix.m00.multiply state.v0).add (matrix.m01.multiply state.v1),
   (matrix.m10.multiply state.v0).add (matrix.m11.multiply state.v1)⟩

/-- getIdentityMatrix of part_000. -/
def getIdentityMatrix : Matrix2x2 :=
  ⟨Complex.one, Complex.zero, Complex.zero, Complex.one⟩

/-- isUnitary of part_000: the conjugate transpose times the matrix must
equal the identity entrywise within the tolerance. -/
def isUnitary (matrix : Matrix2x2) (tolerance : ℝ) : Prop :=
  let ct : Matrix2x2 :=
    ⟨matrix.m00.conjugate, matrix.m10.conjugate,
     matrix.m01.conjugate, matrix.m11.conjugate⟩
  let product := multiplyMatrices ct matrix
  let identity := getIdentityMatrix
  product.m00.equals identity.m00 tolerance ∧
  product.m01.equals identity.m01 tolerance ∧
  product.m10.equals identity.m10 tolerance ∧
  product.m11.equals identity.m11 tolerance

/-- isNormalized of part_000. -/
def isNormalized (state : StateVector) (tolerance : ℝ) : Prop :=
  |state.v0.magnitudeSquared + state.v1.magnitudeSquared - 1.0| < tolerance

/-- Result record of calculateProbabilities of part_000. -/
structure ProbResult where
  prob0 : ℝ
  prob1 : ℝ
  isNormalized : Prop

/-- calculateProbabilities of part_000: squared magnitudes divided by
their sum, with no guard against a zero divisor. -/
def calculateProbabilities (state : StateVector) : ProbResult :=
  let prob0 := state.v0.magnitudeSquared
  let prob1 := state.v1.magnitudeSquared
  let total := prob0 + prob1
  ⟨prob0 / total, prob1 / total, |total - 1.0| < 1e-12⟩

/-- calculatePurity of part_000: sum of the squared normalized
probabilities. -/
def calculatePurity (state : StateVector) : ℝ :=
  let probs := calculateProbabilities state
  probs.prob0 * probs.prob0 + probs.prob1 * probs.prob1

end QuantumMath

namespace App

/-- Complex number class of App.tsx: the constructor stores both
components unchanged (no snapping). -/
structure Complex where
  re : ℝ
  im : ℝ

/-- Complex multiplication of App.tsx. -/
def Complex.multiply (a b : Complex) : Complex :=
  ⟨a.re * b.re - a.im * b.im, a.re * b.im + a.im * b.re⟩

/-- Complex addition of App.tsx. -/
def Complex.add (a b : Complex) : Complex :=
  ⟨a.re + b.re, a.im + b.im⟩

/-- Complex subtraction of App.tsx. -/
def Complex.subtract (a b : Complex) : Complex :=
  ⟨a.re - b.re, a.im - b.im⟩

/-- Complex conjugation of App.tsx. -/
def Complex.conjugate (a : Complex) : Complex := ⟨a.re, -a.im⟩

/-- Complex magnitude of App.tsx. -/
def Complex.magnitude (a : Complex) : ℝ :=
  Real.sqrt (a.re * a.re + a.im * a.im)

/-- Row-major 2 by 2 matrix of App.tsx complex numbers. -/
structure Matrix2x2 where
  m00 : Complex
  m01 : Complex
  m10 : Complex
  m11 : Complex

/-- Two-element state vector of App.tsx complex numbers. -/
structure StateVector where
  v0 : Complex
  v1 : Complex

/-- The GATES registry of App.tsx. -/
def GATES : Gate → Matrix2x2
  | Gate.H =>
      ⟨⟨1 / Real.sqrt 2, 0⟩, ⟨1 / Real.sqrt 2, 0⟩,
       ⟨1 / Real.sqrt 2, 0⟩, ⟨-(1 / Real.sqrt 2), 0⟩⟩
  | Gate.X => ⟨⟨0, 0⟩, ⟨1, 0⟩, ⟨1, 0⟩, ⟨0, 0⟩⟩
  | Gate.Y => ⟨⟨0, 0⟩, ⟨0, -1⟩, ⟨0, 1⟩, ⟨0, 0⟩⟩
  | Gate.Z => ⟨⟨1, 0⟩, ⟨0, 0⟩, ⟨0, 0⟩, ⟨-1, 0⟩⟩
  | Gate.S => ⟨⟨1, 0⟩, ⟨0, 0⟩, ⟨0, 0⟩, ⟨0, 1⟩⟩
  | Gate.T =>
      ⟨⟨1, 0⟩, ⟨0, 0⟩, ⟨0, 0⟩,
       ⟨Real.cos (Real.pi / 4), Real.sin (Real.pi / 4)⟩⟩
  | Gate.Sdag => ⟨⟨1, 0⟩, ⟨0, 0⟩, ⟨0, 0⟩, ⟨0, -1⟩⟩
  | Gate.Tdag =>
      ⟨⟨1, 0⟩, ⟨0, 0⟩, ⟨0, 0⟩,
       ⟨Real.cos (-(Real.pi / 4)), Real.sin (-(Real.pi / 4))⟩⟩

/-- multiplyMatrices of App.tsx. -/
def multiplyMatrices (a b : Matrix2x2) : Matrix2x2 :=
  ⟨(a.m00.multiply b.m00).add (a.m01.multiply b.m10),
   (a.m00.multiply b.m01).add (a.m01.multiply b.m11),
   (a.m10.multiply b.m00).add (a.m11.multiply b.m10),
   (a.m10.multiply b.m01).add (a.m11.multiply b.m11)⟩

/-- applyMatrix of App.tsx. -/
def applyMatrix (matrix : Matrix2x2) (state : StateVector) : StateVector :=
  ⟨(matrix.m00.multiply state.v0).add (matrix.m01.multiply state.v1),
   (matrix.m10.multiply state.v0).add (matrix.m11.multiply state.v1)⟩

/-- getIdentityMatrix of App.tsx. -/
def getIdentityMatrix : Matrix2x2 :=
  ⟨⟨1, 0⟩, ⟨0, 0⟩, ⟨0, 0⟩, ⟨1, 0⟩⟩

/-- calculateProbabilities of App.tsx: squared magnitudes divided by
their sum, again with no guard against a zero divisor. -/
def calculateProbabilities (state : StateVector) : ℝ × ℝ :=
  let prob0 := state.v0.magnitude ^ 2
  let prob1 := state.v1.magnitude ^ 2
  let total := prob0 + prob1
  (prob0 / total, prob1 / total)

/-- A gate operation of App.tsx: unique identifier plus gate name.
The timestamp field carries no semantics and is omitted; identifiers are
modelled as natural numbers. -/
structure GateOperation where
  id : ℕ
  gate : Gate
deriving DecidableEq

/-- A history snapshot of App.tsx: the composition triple. -/
structure HistoryState where
  operations : List GateOperation
  currentState : StateVector
  compositeMatrix : Matrix2x2

/-- The mutable state of the App component: the composition triple plus
the history log and its pointer (the pointer starts at -1, hence ℤ). -/
structure AppState where
  operations : List GateOperation
  currentState : StateVector
  compositeMatrix : Matrix2x2
  history : List HistoryState
  historyIndex : ℤ

/-- The fixed initial vector (1, 0). -/
def initVec : StateVector := ⟨⟨1, 0⟩, ⟨0, 0⟩⟩

/-- The initial App state: empty sequence, state (1,0), identity matrix,
empty history, pointer -1. -/
def initialApp : AppState :=
  ⟨[], initVec, getIdentityMatrix, [], -1⟩

/-- saveToHistory of App.tsx: truncate the log after the pointer, push
the new snapshot, evict the oldest entry when the log exceeds 100, and
point at the new last entry. -/
def saveToHistory (ops : List GateOperation) (state : StateVector)
    (matrix : Matrix2x2) (app : AppState) : AppState :=
  let newHistory0 := app.history.take (app.historyIndex + 1).toNat ++
    [HistoryState.mk ops state matrix]
  let newHistory := if newHistory0.length > 100 then newHistory0.tail
    else newHistory0
  { app with history := newHistory,
             historyIndex := (newHistory.length : ℤ) - 1 }

/-- addGate of App.tsx: append the operation, apply the gate matrix to
the current state, left-multiply it onto the composite matrix, and save
a snapshot. -/
def addGate (newId : ℕ) (gateName : Gate) (app : AppState) : AppState :=
  let newOperations := app.operations ++ [GateOperation.mk newId gateName]
  let gateMatrix := GATES gateName
  let newState := applyMatrix gateMatrix app.currentState
  let newCompositeMatrix := multiplyMatrices gateMatrix app.compositeMatrix
  { saveToHistory newOperations newState newCompositeMatrix app with
      operations := newOperations,
      currentState := newState,
      compositeMatrix := newCompositeMatrix }

/-- reset of App.tsx: return the triple to the initial one and save a
snapshot of it. -/
def reset (app : AppState) : AppState :=
  { saveToHistory [] initVec getIdentityMatrix app with
      operations := [],
      currentState := initVec,
      compositeMatrix := getIdentityMatrix }

/-- undo of App.tsx: when the pointer is past the first entry, move it
back one and restore that snapshot; otherwise do nothing. -/
def undo (app : AppState) : AppState :=
  if app.historyIndex > 0 then
    let prevState := app.history.getD (app.historyIndex - 1).toNat
      (HistoryState.mk [] initVec getIdentityMatrix)
    { app with historyIndex := app.historyIndex - 1,
               operations := prevState.operations,
               currentState := prevState.currentState,
               compositeMatrix := prevState.compositeMatrix }
  else app

/-- redo of App.tsx: when the pointer is before the last entry, move it
forward one and restore that snapshot; otherwise do nothing. -/
def redo (app : AppState) : AppState :=
  if app.historyIndex < (app.history.length : ℤ) - 1 then
    let nextState := app.history.getD (app.historyIndex + 1).toNat
      (HistoryState.mk [] initVec getIdentityMatrix)
    { app with historyIndex := app.historyIndex + 1,
               operations := nextState.operations,
               currentState := nextState.currentState,
               compositeMatrix := nextState.compositeMatrix }
  else app

/-- removeOperation of App.tsx: drop the operation with the given
identifier, then recompute the matrix with the source loop
(for i from the last index down to 0, newMatrix := G i * newMatrix,
starting from the identity), which is exactly a right fold, and apply
the result to the fixed initial vector. -/
def removeOperation (operationId : ℕ) (app : AppState) : AppState :=
  let newOperations := app.operations.filter (fun op => op.id ≠ operationId)
  let newMatrix := newOperations.foldr
    (fun op m => multiplyMatrices (GATES op.gate) m) getIdentityMatrix
  let newState := applyMatrix newMatrix initVec
  { saveToHistory newOperations newState newMatrix app with
      operations := newOperations,
      currentState := newState,
      compositeMatrix := newMatrix }

/-- The right-to-left product of the gate matrices of a sequence, the
most recently appended gate leftmost: exactly the composite that
repeated addGate builds. -/
def rightToLeftProduct (ops : List GateOperation) : Matrix2x2 :=
  ops.foldl (fun m op => multiplyMatrices (GATES op.gate) m) getIdentityMatrix

/-- The states reachable from the initial App state by append, remove
and reset operations. -/
inductive Reachable : AppState → Prop
  | init : Reachable initialApp
  | add (newId : ℕ) (g : Gate) {s : AppState} :
      Reachable s → Reachable (addGate newId g s)
  | remove (operationId : ℕ) {s : AppState} :
      Reachable s → Reachable (removeOperation operationId s)
  | reset_step {s : AppState} : Reachable s → Reachable (reset s)

/-- The composition invariant claimed by the spec: the composite matrix
is the right-to-left product of the sequence, and the current state is
that product applied to the fixed initial vector. -/
def compositionInvariant (app : AppState) : Prop :=
  app.compositeMatrix = rightToLeftProduct app.operations ∧
  app.currentState = applyMatrix (rightToLeftProduct app.operations) initVec

end App

lemma sqrt2_pos : 0 < Real.sqrt 2 := Real.sqrt_pos.mpr (by norm_num)

lemma sqrt2_mul_self : Real.sqrt 2 * Real.sqrt 2 = 2 :=
  Real.mul_self_sqrt (by norm_num)

lemma sqrt2_le_two : Real.sqrt 2 ≤ 2 := by
  nlinarith [sqrt2_mul_self, sqrt2_pos]

namespace QuantumMath

lemma s_pos : 0 < SQRT2_INV := by
  rw [SQRT2_INV, SQRT2]
  positivity

lemma half_le_s : (1 / 2 : ℝ) ≤ SQRT2_INV := by
  rw [SQRT2_INV, SQRT2, div_le_div_iff₀ (by norm_num) sqrt2_pos]
  nlinarith [sqrt2_le_two]

lemma s_mul_s : SQRT2_INV * SQRT2_INV = 1 / 2 := by
  rw [SQRT2_INV, SQRT2, div_mul_div_comm, one_mul, sqrt2_mul_self]

lemma eps_le_abs_s : (1e-15 : ℝ) ≤ |SQRT2_INV| := by
  rw [abs_of_pos s_pos]
  linarith [half_le_s]

lemma cos_pi4 : Real.cos PI_4 = SQRT2_INV := by
  rw [PI_4, Real.cos_pi_div_four, SQRT2_INV, SQRT2]
  rw [div_eq_div_iff (by norm_num) (ne_of_gt sqrt2_pos)]
  nlinarith [sqrt2_mul_self]

lemma sin_pi4 : Real.sin PI_4 = SQRT2_INV := by
  rw [PI_4, Real.sin_pi_div_four, SQRT2_INV, SQRT2]
  rw [div_eq_div_iff (by norm_num) (ne_of_gt sqrt2_pos)]
  nlinarith [sqrt2_mul_self]

lemma cos_neg_pi4 : Real.cos (-PI_4) = SQRT2_INV := by
  rw [Real.cos_neg]
  exact cos_pi4

lemma sin_neg_pi4 : Real.sin (-PI_4) = -SQRT2_INV := by
  rw [Real.sin_neg, sin_pi4]

lemma snap_id (x : ℝ) (h : (1e-15 : ℝ) ≤ |x|) : snap x = x := by
  unfold snap
  exact if_neg (not_lt.mpr h)

lemma snap_zero : snap 0 = 0 := by
  unfold snap
  split <;> rfl

lemma snap_one : snap (1 : ℝ) = 1 :=
  snap_id 1 (by rw [abs_one]; norm_num)

lemma snap_neg_one : snap (-1 : ℝ) = -1 :=
  snap_id _ (by rw [abs_neg, abs_one]; norm_num)

lemma snap_half : snap (1 / 2 : ℝ) = 1 / 2 :=
  snap_id _ (by rw [abs_of_pos (by norm_num : (0:ℝ) < 1 / 2)]; norm_num)

lemma snap_neg_half : snap (-(1 / 2) : ℝ) = -(1 / 2) :=
  snap_id _ (by rw [abs_neg, abs_of_pos (by norm_num : (0:ℝ) < 1 / 2)]; norm_num)

lemma snap_s : snap SQRT2_INV = SQRT2_INV := snap_id _ eps_le_abs_s

lemma snap_neg_s : snap (-SQRT2_INV) = -SQRT2_INV :=
  snap_id _ (by rw [abs_neg]; exact eps_le_abs_s)

lemma construct_eval (a b c d : ℝ) (h1 : snap a = c) (h2 : snap b = d) :
    Complex.construct a b = ⟨c, d⟩ := by
  unfold Complex.construct
  rw [h1, h2]

lemma zeroc_eval : Complex.zero = ⟨0, 0⟩ :=
  construct_eval 0 0 0 0 snap_zero snap_zero

lemma onec_eval : Complex.one = ⟨1, 0⟩ :=
  construct_eval 1 0 1 0 snap_one snap_zero

lemma ic_eval : Complex.i = ⟨0, 1⟩ :=
  construct_eval 0 1 0 1 snap_zero snap_one

lemma c_s0 : Complex.construct SQRT2_INV 0 = ⟨SQRT2_INV, 0⟩ :=
  construct_eval _ _ _ _ snap_s snap_zero

lemma c_ms0 : Complex.construct (-SQRT2_INV) 0 = ⟨-SQRT2_INV, 0⟩ :=
  construct_eval _ _ _ _ snap_neg_s snap_zero

lemma c_0m1 : Complex.construct 0 (-1) = ⟨0, -1⟩ :=
  construct_eval _ _ _ _ snap_zero snap_neg_one

lemma c_m10 : Complex.construct (-1) 0 = ⟨-1, 0⟩ :=
  construct_eval _ _ _ _ snap_neg_one snap_zero

lemma fp_T : Complex.fromPolar 1 PI_4 = ⟨SQRT2_INV, SQRT2_INV⟩ := by
  unfold Complex.fromPolar
  rw [cos_pi4, sin_pi4, one_mul]
  exact construct_eval _ _ _ _ snap_s snap_s

lemma fp_Tdag : Complex.fromPolar 1 (-PI_4) = ⟨SQRT2_INV, -SQRT2_INV⟩ := by
  unfold Complex.fromPolar
  rw [cos_neg_pi4, sin_neg_pi4, one_mul, one_mul]
  exact construct_eval _ _ _ _ snap_s snap_neg_s

lemma H_eval : GATES Gate.H =
    ⟨⟨SQRT2_INV, 0⟩, ⟨SQRT2_INV, 0⟩, ⟨SQRT2_INV, 0⟩, ⟨-SQRT2_INV, 0⟩⟩ := by
  simp only [GATES, c_s0, c_ms0]

lemma X_eval : GATES Gate.X = ⟨⟨0, 0⟩, ⟨1, 0⟩, ⟨1, 0⟩, ⟨0, 0⟩⟩ := by
  simp only [GATES, zeroc_eval, onec_eval]

lemma Y_eval : GATES Gate.Y = ⟨⟨0, 0⟩, ⟨0, -1⟩, ⟨0, 1⟩, ⟨0, 0⟩⟩ := by
  simp only [GATES, zeroc_eval, ic_eval, c_0m1]

lemma Z_eval : GATES Gate.Z = ⟨⟨1, 0⟩, ⟨0, 0⟩, ⟨0, 0⟩, ⟨-1, 0⟩⟩ := by
  simp only [GATES, zeroc_eval, onec_eval, c_m10]

lemma S_eval : GATES Gate.S = ⟨⟨1, 0⟩, ⟨0, 0⟩, ⟨0, 0⟩, ⟨0, 1⟩⟩ := by
  simp only [GATES, zeroc_eval, onec_eval, ic_eval]

lemma T_eval : GATES Gate.T =
    ⟨⟨1, 0⟩, ⟨0, 0⟩, ⟨0, 0⟩, ⟨SQRT2_INV, SQRT2_INV⟩⟩ := by
  simp only [GATES, zeroc_eval, onec_eval, fp_T]

lemma Sdag_eval : GATES Gate.Sdag = ⟨⟨1, 0⟩, ⟨0, 0⟩, ⟨0, 0⟩, ⟨0, -1⟩⟩ := by
  simp only [GATES, zeroc_eval, onec_eval, c_0m1]

lemma Tdag_eval : GATES Gate.Tdag =
    ⟨⟨1, 0⟩, ⟨0, 0⟩, ⟨0, 0⟩, ⟨SQRT2_INV, -SQRT2_INV⟩⟩ := by
  simp only [GATES, zeroc_eval, onec_eval, fp_Tdag]

lemma conj_real (a : ℝ) (h : snap a = a) :
    Complex.conjugate ⟨a, 0⟩ = ⟨a, 0⟩ := by
  unfold Complex.conjugate
  rw [show (-(⟨a, 0⟩ : Complex).im) = (0:ℝ) by rw [show (⟨a, 0⟩ : Complex).im = 0 from rfl]; rw [neg_zero]]
  exact construct_eval _ _ _ _ h snap_zero

lemma conj_zeroc : Complex.conjugate ⟨0, 0⟩ = ⟨0, 0⟩ := conj_real 0 snap_zero

lemma conj_onec : Complex.conjugate ⟨1, 0⟩ = ⟨1, 0⟩ := conj_real 1 snap_one

lemma conj_m1 : Complex.conjugate ⟨-1, 0⟩ = ⟨-1, 0⟩ := conj_real _ snap_neg_one

lemma conj_s : Complex.conjugate ⟨SQRT2_INV, 0⟩ = ⟨SQRT2_INV, 0⟩ :=
  conj_real _ snap_s

lemma conj_ms : Complex.conjugate ⟨-SQRT2_INV, 0⟩ = ⟨-SQRT2_INV, 0⟩ :=
  conj_real _ snap_neg_s

lemma conj_i : Complex.conjugate ⟨0, 1⟩ = ⟨0, -1⟩ := by
  unfold Complex.conjugate
  exact construct_eval _ _ _ _ snap_zero snap_neg_one

lemma conj_mi : Complex.conjugate ⟨0, -1⟩ = ⟨0, 1⟩ := by
  unfold Complex.conjugate
  rw [show (-(⟨(0:ℝ), (-1:ℝ)⟩ : Complex).im) = (1:ℝ) by norm_num]
  exact construct_eval _ _ _ _ snap_zero snap_one

lemma conj_t : Complex.conjugate ⟨SQRT2_INV, SQRT2_INV⟩ =
    ⟨SQRT2_INV, -SQRT2_INV⟩ := by
  unfold Complex.conjugate
  exact construct_eval _ _ _ _ snap_s snap_neg_s

lemma conj_tbar : Complex.conjugate ⟨SQRT2_INV, -SQRT2_INV⟩ =
    ⟨SQRT2_INV, SQRT2_INV⟩ := by
  unfold Complex.conjugate
  rw [show (-(⟨SQRT2_INV, -SQRT2_INV⟩ : Complex).im) = SQRT2_INV by
    rw [show (⟨SQRT2_INV, -SQRT2_INV⟩ : Complex).im = -SQRT2_INV from rfl, neg_neg]]
  exact construct_eval _ _ _ _ snap_s snap_s

lemma mulc_zero_left (x : Complex) :
    Complex.multiply ⟨0, 0⟩ x = ⟨0, 0⟩ := by
  unfold Complex.multiply
  rw [show (⟨(0:ℝ), (0:ℝ)⟩ : Complex).re * x.re - (⟨(0:ℝ), (0:ℝ)⟩ : Complex).im * x.im = 0 by
    show (0:ℝ) * x.re - 0 * x.im = 0; ring]
  rw [show (⟨(0:ℝ), (0:ℝ)⟩ : Complex).re * x.im + (⟨(0:ℝ), (0:ℝ)⟩ : Complex).im * x.re = 0 by
    show (0:ℝ) * x.im + 0 * x.re = 0; ring]
  exact construct_eval _ _ _ _ snap_zero snap_zero

lemma mulc_zero_right (x : Complex) :
    Complex.multiply x ⟨0, 0⟩ = ⟨0, 0⟩ := by
  unfold Complex.multiply
  rw [show x.re * (⟨(0:ℝ), (0:ℝ)⟩ : Complex).re - x.im * (⟨(0:ℝ), (0:ℝ)⟩ : Complex).im = 0 by
    show x.re * (0:ℝ) - x.im * 0 = 0; ring]
  rw [show x.re * (⟨(0:ℝ), (0:ℝ)⟩ : Complex).im + x.im * (⟨(0:ℝ), (0:ℝ)⟩ : Complex).re = 0 by
    show x.re * (0:ℝ) + x.im * 0 = 0; ring]
  exact construct_eval _ _ _ _ snap_zero snap_zero

lemma mulc_eval (a b c d e f : ℝ)
    (h1 : a * c - b * d = e) (h2 : a * d + b * c = f)
    (h3 : snap e = e) (h4 : snap f = f) :
    Complex.multiply ⟨a, b⟩ ⟨c, d⟩ = ⟨e, f⟩ := by
  unfold Complex.multiply
  rw [show (⟨a, b⟩ : Complex).re * (⟨c, d⟩ : Complex).re -
      (⟨a, b⟩ : Complex).im * (⟨c, d⟩ : Complex).im = e from h1]
  rw [show (⟨a, b⟩ : Complex).re * (⟨c, d⟩ : Complex).im +
      (⟨a, b⟩ : Complex).im * (⟨c, d⟩ : Complex).re = f from h2]
  exact construct_eval _ _ _ _ h3 h4

lemma mulc_one_one : Complex.multiply ⟨1, 0⟩ ⟨1, 0⟩ = ⟨1, 0⟩ :=
  mulc_eval 1 0 1 0 1 0 (by ring) (by ring) snap_one snap_zero

lemma mulc_m1_m1 : Complex.multiply ⟨-1, 0⟩ ⟨-1, 0⟩ = ⟨1, 0⟩ :=
  mulc_eval (-1) 0 (-1) 0 1 0 (by ring) (by ring) snap_one snap_zero

lemma mulc_mi_i : Complex.multiply ⟨0, -1⟩ ⟨0, 1⟩ = ⟨1, 0⟩ :=
  mulc_eval 0 (-1) 0 1 1 0 (by ring) (by ring) snap_one snap_zero

lemma mulc_i_mi : Complex.multiply ⟨0, 1⟩ ⟨0, -1⟩ = ⟨1, 0⟩ :=
  mulc_eval 0 1 0 (-1) 1 0 (by ring) (by ring) snap_one snap_zero

lemma mulc_s_s : Complex.multiply ⟨SQRT2_INV, 0⟩ ⟨SQRT2_INV, 0⟩ = ⟨1 / 2, 0⟩ :=
  mulc_eval _ _ _ _ _ _ (by linear_combination s_mul_s) (by ring)
    snap_half snap_zero

lemma mulc_s_ms : Complex.multiply ⟨SQRT2_INV, 0⟩ ⟨-SQRT2_INV, 0⟩ =
    ⟨-(1 / 2), 0⟩ :=
  mulc_eval _ _ _ _ _ _ (by linear_combination -s_mul_s) (by ring)
    snap_neg_half snap_zero

lemma mulc_ms_s : Complex.multiply ⟨-SQRT2_INV, 0⟩ ⟨SQRT2_INV, 0⟩ =
    ⟨-(1 / 2), 0⟩ :=
  mulc_eval _ _ _ _ _ _ (by linear_combination -s_mul_s) (by ring)
    snap_neg_half snap_zero

lemma mulc_ms_ms : Complex.multiply ⟨-SQRT2_INV, 0⟩ ⟨-SQRT2_INV, 0⟩ =
    ⟨1 / 2, 0⟩ :=
  mulc_eval _ _ _ _ _ _ (by linear_combination s_mul_s) (by ring)
    snap_half snap_zero

lemma mulc_tbar_t :
    Complex.multiply ⟨SQRT2_INV, -SQRT2_INV⟩ ⟨SQRT2_INV, SQRT2_INV⟩ =
    ⟨1, 0⟩ :=
  mulc_eval _ _ _ _ _ _ (by linear_combination 2 * s_mul_s) (by ring)
    snap_one snap_zero

lemma mulc_t_tbar :
    Complex.multiply ⟨SQRT2_INV, SQRT2_INV⟩ ⟨SQRT2_INV, -SQRT2_INV⟩ =
    ⟨1, 0⟩ :=
  mulc_eval _ _ _ _ _ _ (by linear_combination 2 * s_mul_s) (by ring)
    snap_one snap_zero

lemma addc_eval (a b c d e f : ℝ)
    (h1 : a + c = e) (h2 : b + d = f)
    (h3 : snap e = e) (h4 : snap f = f) :
    Complex.add ⟨a, b⟩ ⟨c, d⟩ = ⟨e, f⟩ := by
  unfold Complex.add
  rw [show (⟨a, b⟩ : Complex).re + (⟨c, d⟩ : Complex).re = e from h1]
  rw [show (⟨a, b⟩ : Complex).im + (⟨c, d⟩ : Complex).im = f from h2]
  exact construct_eval _ _ _ _ h3 h4

lemma addc_hh : Complex.add ⟨1 / 2, 0⟩ ⟨1 / 2, 0⟩ = ⟨1, 0⟩ :=
  addc_eval _ _ _ _ _ _ (by norm_num) (by norm_num) snap_one snap_zero

lemma addc_hmh : Complex.add ⟨1 / 2, 0⟩ ⟨-(1 / 2), 0⟩ = ⟨0, 0⟩ :=
  addc_eval _ _ _ _ _ _ (by norm_num) (by norm_num) snap_zero snap_zero

lemma addc_01 : Complex.add ⟨0, 0⟩ ⟨1, 0⟩ = ⟨1, 0⟩ :=
  addc_eval _ _ _ _ _ _ (by norm_num) (by norm_num) snap_one snap_zero

lemma addc_10 : Complex.add ⟨1, 0⟩ ⟨0, 0⟩ = ⟨1, 0⟩ :=
  addc_eval _ _ _ _ _ _ (by norm_num) (by norm_num) snap_one snap_zero

lemma addc_00 : Complex.add ⟨0, 0⟩ ⟨0, 0⟩ = ⟨0, 0⟩ :=
  addc_eval _ _ _ _ _ _ (by norm_num) (by norm_num) snap_zero snap_zero

lemma unitary_H : isUnitary (GATES Gate.H) 1e-12 := by
  simp only [isUnitary, H_eval, conj_s, conj_ms, multiplyMatrices,
    mulc_s_s, mulc_s_ms, mulc_ms_s, mulc_ms_ms, addc_hh, addc_hmh,
    getIdentityMatrix, onec_eval, zeroc_eval, Complex.equals]
  norm_num

lemma unitary_X : isUnitary (GATES Gate.X) 1e-12 := by
  simp only [isUnitary, X_eval, conj_zeroc, conj_onec, multiplyMatrices,
    mulc_zero_left, mulc_zero_right, mulc_one_one, addc_01, addc_10, addc_00,
    getIdentityMatrix, onec_eval, zeroc_eval, Complex.equals]
  norm_num

lemma unitary_Y : isUnitary (GATES Gate.Y) 1e-12 := by
  simp only [isUnitary, Y_eval, conj_zeroc, conj_i, conj_mi, multiplyMatrices,
    mulc_zero_left, mulc_zero_right, mulc_mi_i, mulc_i_mi, addc_01, addc_10,
    addc_00, getIdentityMatrix, onec_eval, zeroc_eval, Complex.equals]
  norm_num

lemma unitary_Z : isUnitary (GATES Gate.Z) 1e-12 := by
  simp only [isUnitary, Z_eval, conj_zeroc, conj_onec, conj_m1,
    multiplyMatrices, mulc_zero_left, mulc_zero_right, mulc_one_one,
    mulc_m1_m1, addc_01, addc_10, addc_00, getIdentityMatrix, onec_eval,
    zeroc_eval, Complex.equals]
  norm_num

lemma unitary_S : isUnitary (GATES Gate.S) 1e-12 := by
  simp only [isUnitary, S_eval, conj_zeroc, conj_onec, conj_i,
    multiplyMatrices, mulc_zero_left, mulc_zero_right, mulc_one_one,
    mulc_mi_i, addc_01, addc_10, addc_00, getIdentityMatrix, onec_eval,
    zeroc_eval, Complex.equals]
  norm_num

lemma unitary_T : isUnitary (GATES Gate.T) 1e-12 := by
  simp only [isUnitary, T_eval, conj_zeroc, conj_onec, conj_t,
    multiplyMatrices, mulc_zero_left, mulc_zero_right, mulc_one_one,
    mulc_tbar_t, addc_01, addc_10, addc_00, getIdentityMatrix, onec_eval,
    zeroc_eval, Complex.equals]
  norm_num

lemma unitary_Sdag : isUnitary (GATES Gate.Sdag) 1e-12 := by
  simp only [isUnitary, Sdag_eval, conj_zeroc, conj_onec, conj_mi,
    multiplyMatrices, mulc_zero_left, mulc_zero_right, mulc_one_one,
    mulc_i_mi, addc_01, addc_10, addc_00, getIdentityMatrix, onec_eval,
    zeroc_eval, Complex.equals]
  norm_num

lemma unitary_Tdag : isUnitary (GATES Gate.Tdag) 1e-12 := by
  simp only [isUnitary, Tdag_eval, conj_zeroc, conj_onec, conj_tbar,
    multiplyMatrices, mulc_zero_left, mulc_zero_right, mulc_one_one,
    mulc_t_tbar, addc_01, addc_10, addc_00, getIdentityMatrix, onec_eval,
    zeroc_eval, Complex.equals]
  norm_num

/-- Entrywise tolerance comparison of two matrices, using the tolerance
equality of the part_000 Complex class. -/
def matrixEquals (a b : Matrix2x2) (tolerance : ℝ) : Prop :=
  a.m00.equals b.m00 tolerance ∧ a.m01.equals b.m01 tolerance ∧
  a.m10.equals b.m10 tolerance ∧ a.m11.equals b.m11 tolerance

/-- Claim C4: for every one of the eight gate identifiers in the registry
(H, X, Y, Z, S, T, S dagger, T dagger), isUnitary applied to the gate
matrix with tolerance 1e-12 holds. -/
theorem claim4_all_registry_gates_unitary :
    ∀ g : Gate, isUnitary (GATES g) 1e-12 := by
  intro g
  cases g
  exacts [unitary_H, unitary_X, unitary_Y, unitary_Z, unitary_S, unitary_T,
    unitary_Sdag, unitary_Tdag]

/-- Claim C5: for each of H, X, Y, Z, the matrix product of the gate with
itself equals the identity matrix, each element within tolerance 1e-12. -/
theorem claim5_self_inverse_gates :
    matrixEquals (multiplyMatrices (GATES Gate.H) (GATES Gate.H))
      getIdentityMatrix 1e-12 ∧
    matrixEquals (multiplyMatrices (GATES Gate.X) (GATES Gate.X))
      getIdentityMatrix 1e-12 ∧
    matrixEquals (multiplyMatrices (GATES Gate.Y) (GATES Gate.Y))
      getIdentityMatrix 1e-12 ∧
    matrixEquals (multiplyMatrices (GATES Gate.Z) (GATES Gate.Z))
      getIdentityMatrix 1e-12 := by
  refine ⟨?_, ?_, ?_, ?_⟩
  · simp only [matrixEquals, H_eval, multiplyMatrices, mulc_s_s, mulc_s_ms,
      mulc_ms_s, mulc_ms_ms, addc_hh, addc_hmh, getIdentityMatrix,
      onec_eval, zeroc_eval, Complex.equals]
    norm_num
  · simp only [matrixEquals, X_eval, multiplyMatrices, mulc_zero_left,
      mulc_zero_right, mulc_one_one, addc_01, addc_10, addc_00,
      getIdentityMatrix, onec_eval, zeroc_eval, Complex.equals]
    norm_num
  · simp only [matrixEquals, Y_eval, multiplyMatrices, mulc_zero_left,
      mulc_zero_right, mulc_mi_i, mulc_i_mi, addc_01, addc_10, addc_00,
      getIdentityMatrix, onec_eval, zeroc_eval, Complex.equals]
    norm_num
  · simp only [matrixEquals, Z_eval, multiplyMatrices, mulc_zero_left,
      mulc_zero_right, mulc_one_one, mulc_m1_m1, addc_01, addc_10, addc_00,
      getIdentityMatrix, onec_eval, zeroc_eval, Complex.equals]
    norm_num

/-- Claim C6, counterexample: the normalized state vector (3/5, 4/5) has
sum of squared magnitudes exactly 1, yet calculatePurity returns
337/625, not 1. The purity function squares the normalized
probabilities, which only yields 1 for basis-aligned states. -/
theorem claim6_counterexample :
    ((⟨⟨3/5, 0⟩, ⟨4/5, 0⟩⟩ : StateVector).v0.magnitudeSquared +
      (⟨⟨3/5, 0⟩, ⟨4/5, 0⟩⟩ : StateVector).v1.magnitudeSquared = 1) ∧
    calculatePurity ⟨⟨3/5, 0⟩, ⟨4/5, 0⟩⟩ ≠ 1 := by
  constructor
  · norm_num [Complex.magnitudeSquared]
  · norm_num [calculatePurity, calculateProbabilities, Complex.magnitudeSquared]

/-- Claim C6, amended: for every state vector with sum of squared
magnitudes exactly 1, calculatePurity returns 1 minus twice the product
of the two squared magnitudes, and this equals 1 exactly when one of the
two components has squared magnitude zero (a basis-aligned state). -/
theorem claim6_amended_purity (v : StateVector)
    (h : v.v0.magnitudeSquared + v.v1.magnitudeSquared = 1) :
    calculatePurity v =
      1 - 2 * (v.v0.magnitudeSquared * v.v1.magnitudeSquared) ∧
    (calculatePurity v = 1 ↔
      v.v0.magnitudeSquared = 0 ∨ v.v1.magnitudeSquared = 0) := by
  have hm : calculatePurity v =
      v.v0.magnitudeSquared * v.v0.magnitudeSquared +
      v.v1.magnitudeSquared * v.v1.magnitudeSquared := by
    show v.v0.magnitudeSquared / (v.v0.magnitudeSquared + v.v1.magnitudeSquared) *
        (v.v0.magnitudeSquared / (v.v0.magnitudeSquared + v.v1.magnitudeSquared)) +
        v.v1.magnitudeSquared / (v.v0.magnitudeSquared + v.v1.magnitudeSquared) *
        (v.v1.magnitudeSquared / (v.v0.magnitudeSquared + v.v1.magnitudeSquared)) = _
    rw [h, div_one, div_one]
  constructor
  · rw [hm]
    linear_combination (v.v0.magnitudeSquared + v.v1.magnitudeSquared + 1) * h
  · rw [hm]
    constructor
    · intro h1
      have h2 : v.v0.magnitudeSquared * v.v1.magnitudeSquared = 0 := by
        nlinarith
      exact mul_eq_zero.mp h2
    · rintro (h0 | h0) <;> nlinarith [h0, h]

/-- Claim C6, witness instance at the basis state (1, 0). -/
theorem claim6_amended_purity_witness :
    ((⟨⟨1, 0⟩, ⟨0, 0⟩⟩ : StateVector).v0.magnitudeSquared +
      (⟨⟨1, 0⟩, ⟨0, 0⟩⟩ : StateVector).v1.magnitudeSquared = 1) ∧
    (calculatePurity ⟨⟨1, 0⟩, ⟨0, 0⟩⟩ =
      1 - 2 * ((⟨⟨1, 0⟩, ⟨0, 0⟩⟩ : StateVector).v0.magnitudeSquared *
        (⟨⟨1, 0⟩, ⟨0, 0⟩⟩ : StateVector).v1.magnitudeSquared) ∧
    (calculatePurity ⟨⟨1, 0⟩, ⟨0, 0⟩⟩ = 1 ↔
      (⟨⟨1, 0⟩, ⟨0, 0⟩⟩ : StateVector).v0.magnitudeSquared = 0 ∨
      (⟨⟨1, 0⟩, ⟨0, 0⟩⟩ : StateVector).v1.magnitudeSquared = 0)) :=
  ⟨by norm_num [Complex.magnitudeSquared],
   claim6_amended_purity ⟨⟨1, 0⟩, ⟨0, 0⟩⟩
     (by norm_num [Complex.magnitudeSquared])⟩

/-- The invariant that every snapped real component satisfies: it is
exactly zero or of magnitude at least 1e-15. -/
lemma snap_invariant (x : ℝ) : snap x = 0 ∨ (1e-15 : ℝ) ≤ |snap x| := by
  unfold snap
  split
  · exact Or.inl rfl
  · next h => exact Or.inr (not_lt.mp h)

/-- Claim C7, counterexample: the App.tsx Complex constructor, one of the
two constructors the claim covers, performs no snapping: constructing
with real part 1e-16 keeps a component that is neither zero nor of
magnitude at least 1e-15. -/
theorem claim7_counterexample :
    ¬ ((App.Complex.mk 1e-16 0).re = 0 ∨
       (1e-15 : ℝ) ≤ |(App.Complex.mk 1e-16 0).re|) := by
  rintro (h | h)
  · have h1 : (1e-16 : ℝ) = 0 := h
    norm_num at h1
  · have h1 : (1e-15 : ℝ) ≤ |(1e-16 : ℝ)| := h
    rw [abs_of_pos (by norm_num : (0:ℝ) < 1e-16)] at h1
    norm_num at h1

/-- Claim C7, amended: every value produced by the part_000 Complex
constructor has each component either exactly zero or of magnitude at
least 1e-15, and the arithmetic operations inherit this because they
return through that constructor; the duplicated App.tsx constructor does
not snap, as its value at real part 1e-16 shows. -/
theorem claim7_amended_snapping :
    (∀ a b : ℝ,
      ((Complex.construct a b).re = 0 ∨
        (1e-15 : ℝ) ≤ |(Complex.construct a b).re|) ∧
      ((Complex.construct a b).im = 0 ∨
        (1e-15 : ℝ) ≤ |(Complex.construct a b).im|)) ∧
    (∀ x y : Complex,
      ((x.multiply y).re = 0 ∨ (1e-15 : ℝ) ≤ |(x.multiply y).re|) ∧
      ((x.multiply y).im = 0 ∨ (1e-15 : ℝ) ≤ |(x.multiply y).im|) ∧
      ((x.add y).re = 0 ∨ (1e-15 : ℝ) ≤ |(x.add y).re|) ∧
      ((x.add y).im = 0 ∨ (1e-15 : ℝ) ≤ |(x.add y).im|)) ∧
    (App.Complex.mk 1e-16 0).re ≠ 0 ∧
    |(App.Complex.mk 1e-16 0).re| < 1e-15 := by
  refine ⟨fun a b => ⟨snap_invariant a, snap_invariant b⟩,
    fun x y => ⟨snap_invariant _, snap_invariant _, snap_invariant _,
      snap_invariant _⟩, ?_, ?_⟩
  · show (1e-16 : ℝ) ≠ 0
    norm_num
  · show |(1e-16 : ℝ)| < 1e-15
    rw [abs_of_pos (by norm_num : (0:ℝ) < 1e-16)]
    norm_num

/-- Claim C9: calculateProbabilities divides by the unguarded total; on
the all-zero vector the outputs are the junk value of division by zero
and do not form a probability pair (they sum to 0, not 1), while any
vector with some nonzero component yields probabilities summing to
exactly 1. -/
theorem claim9_unguarded_division :
    (calculateProbabilities ⟨⟨0, 0⟩, ⟨0, 0⟩⟩).prob0 = 0 ∧
    (calculateProbabilities ⟨⟨0, 0⟩, ⟨0, 0⟩⟩).prob1 = 0 ∧
    (calculateProbabilities ⟨⟨0, 0⟩, ⟨0, 0⟩⟩).prob0 +
      (calculateProbabilities ⟨⟨0, 0⟩, ⟨0, 0⟩⟩).prob1 ≠ 1 ∧
    ∀ v : StateVector,
      (v.v0.re ≠ 0 ∨ v.v0.im ≠ 0 ∨ v.v1.re ≠ 0 ∨ v.v1.im ≠ 0) →
      (calculateProbabilities v).prob0 + (calculateProbabilities v).prob1 = 1 := by
  refine ⟨?_, ?_, ?_, ?_⟩
  · norm_num [calculateProbabilities, Complex.magnitudeSquared]
  · norm_num [calculateProbabilities, Complex.magnitudeSquared]
  · norm_num [calculateProbabilities, Complex.magnitudeSquared]
  · intro v hv
    have ht : 0 < v.v0.magnitudeSquared + v.v1.magnitudeSquared := by
      unfold Complex.magnitudeSquared
      rcases hv with h | h | h | h <;>
        nlinarith [mul_self_pos.mpr h, mul_self_nonneg v.v0.re,
          mul_self_nonneg v.v0.im, mul_self_nonneg v.v1.re,
          mul_self_nonneg v.v1.im]
    show v.v0.magnitudeSquared / (v.v0.magnitudeSquared + v.v1.magnitudeSquared) +
        v.v1.magnitudeSquared / (v.v0.magnitudeSquared + v.v1.magnitudeSquared) = 1
    rw [div_add_div_same, div_self (ne_of_gt ht)]

/-- Claim C9, witness instance: the basis vector (1, 0) has a nonzero
component and its probabilities sum to exactly 1. -/
theorem claim9_unguarded_division_witness :
    ((⟨⟨1, 0⟩, ⟨0, 0⟩⟩ : StateVector).v0.re ≠ 0 ∨
      (⟨⟨1, 0⟩, ⟨0, 0⟩⟩ : StateVector).v0.im ≠ 0 ∨
      (⟨⟨1, 0⟩, ⟨0, 0⟩⟩ : StateVector).v1.re ≠ 0 ∨
      (⟨⟨1, 0⟩, ⟨0, 0⟩⟩ : StateVector).v1.im ≠ 0) ∧
    (calculateProbabilities ⟨⟨1, 0⟩, ⟨0, 0⟩⟩).prob0 +
      (calculateProbabilities ⟨⟨1, 0⟩, ⟨0, 0⟩⟩).prob1 = 1 :=
  ⟨Or.inl (by norm_num),
   claim9_unguarded_division.2.2.2 ⟨⟨1, 0⟩, ⟨0, 0⟩⟩ (Or.inl (by norm_num))⟩

end QuantumMath

namespace App

lemma addGate_operations (newId : ℕ) (g : Gate) (app : AppState) :
    (addGate newId g app).operations =
      app.operations ++ [GateOperation.mk newId g] := rfl

lemma addGate_currentState (newId : ℕ) (g : Gate) (app : AppState) :
    (addGate newId g app).currentState =
      applyMatrix (GATES g) app.currentState := rfl

lemma addGate_compositeMatrix (newId : ℕ) (g : Gate) (app : AppState) :
    (addGate newId g app).compositeMatrix =
      multiplyMatrices (GATES g) app.compositeMatrix := rfl

lemma removeOperation_operations (operationId : ℕ) (app : AppState) :
    (removeOperation operationId app).operations =
      app.operations.filter (fun op => op.id ≠ operationId) := rfl

lemma removeOperation_compositeMatrix (operationId : ℕ) (app : AppState) :
    (removeOperation operationId app).compositeMatrix =
      (app.operations.filter (fun op => op.id ≠ operationId)).foldr
        (fun op m => multiplyMatrices (GATES op.gate) m) getIdentityMatrix := rfl

lemma removeOperation_currentState (operationId : ℕ) (app : AppState) :
    (removeOperation operationId app).currentState =
      applyMatrix
        ((app.operations.filter (fun op => op.id ≠ operationId)).foldr
          (fun op m => multiplyMatrices (GATES op.gate) m) getIdentityMatrix)
        initVec := rfl

lemma app_s_pos : 0 < 1 / Real.sqrt 2 := by positivity

lemma comp_HZ_m01_re :
    (multiplyMatrices (GATES Gate.H)
      (multiplyMatrices (GATES Gate.Z) getIdentityMatrix)).m01.re =
    -(1 / Real.sqrt 2) := by
  simp [multiplyMatrices, Complex.multiply, Complex.add, GATES,
    getIdentityMatrix]

lemma comp_ZH_m01_re :
    (multiplyMatrices (GATES Gate.Z)
      (multiplyMatrices (GATES Gate.H) getIdentityMatrix)).m01.re =
    1 / Real.sqrt 2 := by
  simp [multiplyMatrices, Complex.multiply, Complex.add, GATES,
    getIdentityMatrix]

lemma state_remove_HZ_v1_re :
    (applyMatrix
      (multiplyMatrices (GATES Gate.H)
        (multiplyMatrices (GATES Gate.Z) getIdentityMatrix)) initVec).v1.re =
    1 / Real.sqrt 2 := by
  simp [applyMatrix, multiplyMatrices, Complex.multiply, Complex.add, GATES,
    getIdentityMatrix, initVec]

lemma state_ZH_v1_re :
    (applyMatrix (GATES Gate.Z)
      (applyMatrix (GATES Gate.H) initVec)).v1.re = -(1 / Real.sqrt 2) := by
  simp [applyMatrix, Complex.multiply, Complex.add, GATES, initVec]

/-- Claim C1: the claimed composition invariant fails on a reachable
state. After appending H, Z, X and removing X, the stored composite
matrix is the forward product H times Z, while the right-to-left product
of the remaining sequence is Z times H; the two differ, so the code does
not maintain the invariant the spec states (the recomputation loop of
removeOperation multiplies in the wrong order). -/
theorem claim1_invariant_fails_after_removal :
    Reachable (removeOperation 3 (addGate 3 Gate.X (addGate 2 Gate.Z
      (addGate 1 Gate.H initialApp)))) ∧
    ¬ compositionInvariant (removeOperation 3 (addGate 3 Gate.X
      (addGate 2 Gate.Z (addGate 1 Gate.H initialApp)))) := by
  constructor
  · exact Reachable.remove 3 (Reachable.add 3 Gate.X (Reachable.add 2 Gate.Z
      (Reachable.add 1 Gate.H Reachable.init)))
  · intro hinv
    unfold compositionInvariant at hinv
    obtain ⟨hM, _⟩ := hinv
    have hL : (removeOperation 3 (addGate 3 Gate.X (addGate 2 Gate.Z
        (addGate 1 Gate.H initialApp)))).compositeMatrix =
        multiplyMatrices (GATES Gate.H)
          (multiplyMatrices (GATES Gate.Z) getIdentityMatrix) := rfl
    have hR : rightToLeftProduct (removeOperation 3 (addGate 3 Gate.X
        (addGate 2 Gate.Z (addGate 1 Gate.H initialApp)))).operations =
        multiplyMatrices (GATES Gate.Z)
          (multiplyMatrices (GATES Gate.H) getIdentityMatrix) := rfl
    rw [hL, hR] at hM
    have h01 : (multiplyMatrices (GATES Gate.H)
        (multiplyMatrices (GATES Gate.Z) getIdentityMatrix)).m01.re =
        (multiplyMatrices (GATES Gate.Z)
          (multiplyMatrices (GATES Gate.H) getIdentityMatrix)).m01.re :=
      congrArg (fun m => m.m01.re) hM
    rw [comp_HZ_m01_re, comp_ZH_m01_re] at h01
    linarith [app_s_pos]

/-- Claim C2: removing the middle operation (X) from the appended
sequence H, X, Z and recomputing yields the composite H times Z, while
rebuilding the shortened sequence H, Z from scratch by repeated append
yields Z times H; the matrices differ, refuting the claimed equivalence
(the recomputation loop of removeOperation multiplies in the wrong
order). -/
theorem claim2_remove_differs_from_rebuild :
    (removeOperation 2 (addGate 3 Gate.Z (addGate 2 Gate.X (addGate 1 Gate.H
      initialApp)))).compositeMatrix ≠
    (addGate 3 Gate.Z (addGate 1 Gate.H initialApp)).compositeMatrix := by
  intro h
  have hL : (removeOperation 2 (addGate 3 Gate.Z (addGate 2 Gate.X
      (addGate 1 Gate.H initialApp)))).compositeMatrix =
      multiplyMatrices (GATES Gate.H)
        (multiplyMatrices (GATES Gate.Z) getIdentityMatrix) := rfl
  have hR : (addGate 3 Gate.Z (addGate 1 Gate.H initialApp)).compositeMatrix =
      multiplyMatrices (GATES Gate.Z)
        (multiplyMatrices (GATES Gate.H) getIdentityMatrix) := rfl
  rw [hL, hR] at h
  have h01 : (multiplyMatrices (GATES Gate.H)
      (multiplyMatrices (GATES Gate.Z) getIdentityMatrix)).m01.re =
      (multiplyMatrices (GATES Gate.Z)
        (multiplyMatrices (GATES Gate.H) getIdentityMatrix)).m01.re :=
    congrArg (fun m => m.m01.re) h
  rw [comp_HZ_m01_re, comp_ZH_m01_re] at h01
  linarith [app_s_pos]

/-- Claim C3: removing a nonexistent identifier (99) from the state
reached by appending H then Z leaves the operation sequence unchanged
but changes both the composite matrix (from Z times H to H times Z) and
the current state vector, so the call is not a no-op as claimed (the
unconditional recomputation multiplies in the wrong order). -/
theorem claim3_remove_nonexistent_not_noop :
    (removeOperation 99 (addGate 2 Gate.Z (addGate 1 Gate.H
      initialApp))).operations =
      (addGate 2 Gate.Z (addGate 1 Gate.H initialApp)).operations ∧
    (removeOperation 99 (addGate 2 Gate.Z (addGate 1 Gate.H
      initialApp))).compositeMatrix ≠
      (addGate 2 Gate.Z (addGate 1 Gate.H initialApp)).compositeMatrix ∧
    (removeOperation 99 (addGate 2 Gate.Z (addGate 1 Gate.H
      initialApp))).currentState ≠
      (addGate 2 Gate.Z (addGate 1 Gate.H initialApp)).currentState := by
  refine ⟨rfl, ?_, ?_⟩
  · intro h
    have hL : (removeOperation 99 (addGate 2 Gate.Z (addGate 1 Gate.H
        initialApp))).compositeMatrix =
        multiplyMatrices (GATES Gate.H)
          (multiplyMatrices (GATES Gate.Z) getIdentityMatrix) := rfl
    have hR : (addGate 2 Gate.Z (addGate 1 Gate.H
        initialApp)).compositeMatrix =
        multiplyMatrices (GATES Gate.Z)
          (multiplyMatrices (GATES Gate.H) getIdentityMatrix) := rfl
    rw [hL, hR] at h
    have h01 : (multiplyMatrices (GATES Gate.H)
        (multiplyMatrices (GATES Gate.Z) getIdentityMatrix)).m01.re =
        (multiplyMatrices (GATES Gate.Z)
          (multiplyMatrices (GATES Gate.H) getIdentityMatrix)).m01.re :=
      congrArg (fun m => m.m01.re) h
    rw [comp_HZ_m01_re, comp_ZH_m01_re] at h01
    linarith [app_s_pos]
  · intro h
    have hL : (removeOperation 99 (addGate 2 Gate.Z (addGate 1 Gate.H
        initialApp))).currentState =
        applyMatrix (multiplyMatrices (GATES Gate.H)
          (multiplyMatrices (GATES Gate.Z) getIdentityMatrix)) initVec := rfl
    have hR : (addGate 2 Gate.Z (addGate 1 Gate.H initialApp)).currentState =
        applyMatrix (GATES Gate.Z) (applyMatrix (GATES Gate.H) initVec) := rfl
    rw [hL, hR] at h
    have h1 : (applyMatrix (multiplyMatrices (GATES Gate.H)
        (multiplyMatrices (GATES Gate.Z) getIdentityMatrix)) initVec).v1.re =
        (applyMatrix (GATES Gate.Z)
          (applyMatrix (GATES Gate.H) initVec)).v1.re :=
      congrArg (fun v => v.v1.re) h
    rw [state_remove_HZ_v1_re, state_ZH_v1_re] at h1
    linarith [app_s_pos]

lemma addGate_historyIndex_eq (newId : ℕ) (g : Gate) (app : AppState) :
    (addGate newId g app).historyIndex =
      ((addGate newId g app).history.length : ℤ) - 1 := rfl

lemma redo_after_addGate (newId : ℕ) (g : Gate) (app : AppState) :
    redo (addGate newId g app) = addGate newId g app := by
  unfold redo
  exact if_neg (by rw [addGate_historyIndex_eq]; exact lt_irrefl _)

/-- Claim C8: from any history log and pointer position, after an undo
followed by recording a new gate append, a subsequent redo is a no-op:
the save performed by addGate truncates the entries ahead of the pointer
and leaves the pointer at the last entry, so redo changes nothing. -/
theorem claim8_redo_noop_after_new_mutation :
    ∀ (app : AppState) (newId : ℕ) (g : Gate),
      redo (addGate newId g (undo app)) = addGate newId g (undo app) :=
  fun app newId g => redo_after_addGate newId g (undo app)

/-- Claim C10: the history log starts empty with the pointer at -1, the
initial triple is never recorded, and after exactly one append every
sequence of undo calls is a no-op, so the composition state never
returns to the pre-first-mutation initial triple (its operation sequence
stays nonempty). -/
theorem claim10_initial_state_unreachable_by_undo :
    initialApp.history = [] ∧ initialApp.historyIndex = -1 ∧
    ∀ (newId : ℕ) (g : Gate) (n : ℕ),
      undo^[n] (addGate newId g initialApp) = addGate newId g initialApp ∧
      (undo^[n] (addGate newId g initialApp)).operations ≠ [] := by
  refine ⟨rfl, rfl, ?_⟩
  intro newId g n
  have h0 : (addGate newId g initialApp).historyIndex = 0 := rfl
  have hu : undo (addGate newId g initialApp) = addGate newId g initialApp := by
    unfold undo
    exact if_neg (by rw [h0]; exact lt_irrefl 0)
  have hit : undo^[n] (addGate newId g initialApp) =
      addGate newId g initialApp := by
    induction n with
    | zero => rfl
    | succ n ih => rw [Function.iterate_succ_apply, hu, ih]
  refine ⟨hit, ?_⟩
  rw [hit, addGate_operations]
  simp

end App
